import Mathlib

set_option maxRecDepth 100000

-- Batteries marks the rational-number arithmetic irreducible; the timing
-- model evaluates exact rationals in `decide` proofs, so reducibility is
-- restored for these four operations.
unseal Rat.mul Rat.add Rat.sub Rat.inv

/-!
Verification of the speech-playback / line-highlight engine of the Glyssa
repository (the Google-TTS service module).  Every definition below is a
shallow embedding of a function of that module; the source line numbers in
the doc comments refer to the service source file.

Conventions of the embedding:
* JavaScript strings are `String` / `List Char`; numeric JS values are
  `Nat`, `Int` or `ℚ` (the timing arithmetic is exact rational arithmetic,
  which the formulas of the source stay inside).
* `Date.now()` is passed explicitly as a `now : Nat` argument.
* The module-level mutable `speechState` object is the record
  `SpeechStateM`; functions that mutate it return the updated record.
* Callback fields hold `Bool` (whether the callback is installed); the
  firing of a callback is recorded as an event instead of a side effect.
* `fetch` is replaced by a `NetOutcome` parameter describing what the one
  network interaction of a session would produce.
-/

/-! ## Character and list utilities (JS semantics) -/

/-- JS `\s` restricted to the ASCII whitespace characters (all strings in
the modelled code paths are ASCII). -/
def isJsWs (c : Char) : Bool :=
  c == ' ' || c == '\t' || c == '\n' || c == '\r' || c == '\x0b' || c == '\x0c'

/-- JS word character (`\w` = `[A-Za-z0-9_]`), used for `\b` boundaries. -/
def isWordChar (c : Char) : Bool :=
  c.isAlpha || c.isDigit || c == '_'

/-- `leadsWith pat l` : `l` begins with `pat` (JS `String.startsWith`). -/
def leadsWith : List Char → List Char → Bool
  | [], _ => true
  | _ :: _, [] => false
  | p :: ps, c :: cs => p == c && leadsWith ps cs

/-- `String.startsWith` of the source, on the underlying character lists. -/
def strLeads (pre s : String) : Bool := leadsWith pre.data s.data

/-- First index at or after `i` where `pat` occurs in `hay` (helper for JS
`String.indexOf` / `String.includes`). -/
def firstIdxAux (pat : List Char) : List Char → Nat → Option Nat
  | [], i => if leadsWith pat [] then some i else none
  | l@(_ :: t), i => if leadsWith pat l then some i else firstIdxAux pat t (i + 1)

/-- JS `String.indexOf`: index of the first occurrence, `-1` if absent
(the empty pattern gives `0`). -/
def jsIndexOf (hay pat : List Char) : Int :=
  match firstIdxAux pat hay 0 with
  | some i => (i : Int)
  | none => -1

/-- JS `String.includes`. -/
def jsIncludes (hay pat : List Char) : Bool :=
  (firstIdxAux pat hay 0).isSome

/-- JS `String.trim` (ASCII whitespace). -/
def jsTrimL (l : List Char) : List Char :=
  ((l.dropWhile isJsWs).reverse.dropWhile isJsWs).reverse

/-- JS `String.trim` on `String`. -/
def jsTrim (s : String) : String := String.mk (jsTrimL s.data)

/-- Tail-recursive list length (used for fuel and match-length
computations).  The accumulator is destructured at every step so that it
stays a literal during kernel reduction instead of growing into a chain
of unevaluated additions. -/
def lenTRAux : Nat → List Char → Nat
  | acc, [] => acc
  | acc, _ :: t =>
    match acc with
    | 0 => lenTRAux 1 t
    | Nat.succ m => lenTRAux (m + 2) t

def lenTR (l : List Char) : Nat := lenTRAux 0 l

/-- UTF-8 byte length of a string, as `new TextEncoder().encode(s).length`
computes it (tail-recursive fold over `Char.utf8Size`, accumulator forced
at every step like `lenTRAux`). -/
def utf8LenAux : Nat → List Char → Nat
  | acc, [] => acc
  | acc, c :: t =>
    match acc with
    | 0 => utf8LenAux c.utf8Size t
    | Nat.succ m => utf8LenAux (m + 1 + c.utf8Size) t

def strUtf8Len (s : String) : Nat := utf8LenAux 0 s.data

/-- Value of a non-empty digit run, as `parseInt(·, 10)` computes it. -/
def digitsToNat (l : List Char) : Nat :=
  l.foldl (fun acc c => acc * 10 + (c.toNat - '0'.toNat)) 0

/-- JS truthiness of an optional string argument (`undefined` and `""` are
falsy). -/
def truthyStrOpt : Option String → Bool
  | none => false
  | some s => !s.data.isEmpty

/-! ## Literal and tag replacement (the `String.replace` chains) -/

/-- One global `replace` of a literal pattern (`pat` non-empty) by `rep`,
scanning left to right without rescanning replacements, as a JS
`str.replace(/lit/g, rep)` does.  Fuel is the length of the input. -/
def replaceLitAux (pat rep : List Char) : Nat → List Char → List Char
  | 0, l => l
  | _ + 1, [] => []
  | fuel + 1, l@(c :: rest) =>
    if !pat.isEmpty && leadsWith pat l then
      rep ++ replaceLitAux pat rep fuel (l.drop pat.length)
    else
      c :: replaceLitAux pat rep fuel rest

def replaceLit (pat rep : List Char) (l : List Char) : List Char :=
  replaceLitAux pat rep (lenTR l) l

/-- One global `replace` of a tag pattern `<name[^>]*>` by `rep`: an
occurrence is `"<" ++ name`, then any characters other than `>`, then `>`.
`name` may be empty (the catch-all `<[^>]*>` of the source). -/
def replaceTagAux (name rep : List Char) : Nat → List Char → List Char
  | 0, l => l
  | _ + 1, [] => []
  | fuel + 1, l@(c :: rest) =>
    if leadsWith ('<' :: name) l then
      let after := l.drop (name.length + 1)
      match firstIdxAux ['>'] after 0 with
      | some i => rep ++ replaceTagAux name rep fuel (after.drop (i + 1))
      | none => c :: replaceTagAux name rep fuel rest
    else
      c :: replaceTagAux name rep fuel rest

def replaceTag (name rep : List Char) (l : List Char) : List Char :=
  replaceTagAux name rep (lenTR l) l

/-! ## The line-reference patterns

The source uses one "primary" pattern (twice, with identical text) and one
"lenient" fallback pattern:

* primary (source lines 776 and 1143):
  `(?:\[\s*[Ll]ine\s*(\d+)(?:\s*-\s*\d+)?\s*\]` `|`
  `(?:^|\s)[Ll]ine\s*(\d+)(?:\s*-\s*\d+)?\s*(?:\:|\.|,|;|\s|$))` with `/g`;
* lenient (source lines 798 and 1167): `[Ll]ine\s*(\d+)` with `/g`.

They are embedded as explicit matchers with the exact greedy/backtracking
behaviour of the JS engine on these patterns (the only backtracking points
are the optional range group and the `\s*` before the final terminator
class). -/

/-- Match the bracket alternative `\[\s*[Ll]ine\s*(\d+)(?:\s*-\s*\d+)?\s*\]`
at the head of `l`; returns (length of the match, captured number). -/
def matchBracketAt (l : List Char) : Option (Nat × Nat) :=
  match l with
  | '[' :: r0 =>
    let r1 := r0.dropWhile isJsWs
    match r1 with
    | c :: r2 =>
      if c == 'L' || c == 'l' then
        match r2 with
        | 'i' :: 'n' :: 'e' :: r3 =>
          let r4 := r3.dropWhile isJsWs
          let ds := r4.takeWhile Char.isDigit
          if ds.isEmpty then none
          else
            let r5 := r4.drop ds.length
            -- optional greedy range `\s*-\s*\d+`, then `\s*\]`; on failure
            -- of the closing bracket the engine retries without the range
            let tryClose : List Char → Option (List Char) := fun r =>
              match r.dropWhile isJsWs with
              | ']' :: rest => some rest
              | _ => none
            let afterRange : Option (List Char) :=
              match r5.dropWhile isJsWs with
              | '-' :: rb =>
                let rc := rb.dropWhile isJsWs
                let ds2 := rc.takeWhile Char.isDigit
                if ds2.isEmpty then none else some (rc.drop ds2.length)
              | _ => none
            match afterRange.bind tryClose with
            | some rest => some (lenTR l - lenTR rest, digitsToNat ds)
            | none =>
              match tryClose r5 with
              | some rest => some (lenTR l - lenTR rest, digitsToNat ds)
              | none => none
        | _ => none
      else none
    | [] => none
  | _ => none

/-- Match the terminator `\s*(?:\:|\.|,|;|\s|$)` at the head of `r`,
with the greedy `\s*` backtracking one step so that a final whitespace can
serve as the `\s` alternative; returns the remainder after the match. -/
def matchTermin (r : List Char) : Option (List Char) :=
  let w := (r.takeWhile isJsWs).length
  match r.drop w with
  | [] => some []
  | c :: rest =>
    if c == ':' || c == '.' || c == ',' || c == ';' then some rest
    else if w ≥ 1 then some (r.drop w)
    else none

/-- Match `[Ll]ine\s*(\d+)(?:\s*-\s*\d+)?\s*(?:\:|\.|,|;|\s|$)` at the head
of `l` (the part of the bare alternative after `(?:^|\s)`); returns
(remainder, captured number). -/
def matchBareCore (l : List Char) : Option (List Char × Nat) :=
  match l with
  | c :: r2 =>
    if c == 'L' || c == 'l' then
      match r2 with
      | 'i' :: 'n' :: 'e' :: r3 =>
        let r4 := r3.dropWhile isJsWs
        let ds := r4.takeWhile Char.isDigit
        if ds.isEmpty then none
        else
          let r5 := r4.drop ds.length
          let rangeRest : Option (List Char) :=
            match r5.dropWhile isJsWs with
            | '-' :: rb =>
              let rc := rb.dropWhile isJsWs
              let ds2 := rc.takeWhile Char.isDigit
              if ds2.isEmpty then none else some (rc.drop ds2.length)
            | _ => none
          match rangeRest.bind matchTermin with
          | some rest => some (rest, digitsToNat ds)
          | none => (matchTermin r5).map (fun rest => (rest, digitsToNat ds))
      | _ => none
    else none
  | [] => none

/-- Match the bare alternative `(?:^|\s)[Ll]ine...` at the head of `l`.
`atStart` tells whether this position is index `0` of the whole string
(where the `^` alternative applies); otherwise a whitespace character must
be consumed first.  Returns (length of the match, captured number). -/
def matchBareAt (atStart : Bool) (l : List Char) : Option (Nat × Nat) :=
  let viaStart :=
    if atStart then
      (matchBareCore l).map (fun p => (lenTR l - lenTR p.1, p.2))
    else none
  match viaStart with
  | some r => some r
  | none =>
    match l with
    | c :: r =>
      if isJsWs c then
        (matchBareCore r).map (fun p => (lenTR l - lenTR p.1, p.2))
      else none
    | [] => none

/-- The `exec` loop of the primary pattern: leftmost matches, bracket
alternative tried before the bare one at each position, resuming after each
match (`lastIndex = index + length`).  Fuel bounds the number of steps; it
is initialised with the length of the input. -/
def scanPrimaryAux : Nat → List Char → Bool → List (String × Nat)
  | 0, _, _ => []
  | _ + 1, [], _ => []
  | fuel + 1, l@(_ :: rest), atStart =>
    match matchBracketAt l with
    | some (len, n) =>
      (String.mk (l.take len), n) :: scanPrimaryAux fuel (l.drop len) false
    | none =>
      match matchBareAt atStart l with
      | some (len, n) =>
        (String.mk (l.take len), n) :: scanPrimaryAux fuel (l.drop len) false
      | none => scanPrimaryAux fuel rest false

/-- All matches of the primary pattern over a string, in order, as
(matched text, captured 1-based line number) pairs. -/
def scanPrimary (s : String) : List (String × Nat) :=
  scanPrimaryAux (lenTR s.data) s.data true

/-- The `exec` loop of the lenient pattern `[Ll]ine\s*(\d+)`. -/
def scanLenientAux : Nat → List Char → List (String × Nat)
  | 0, _ => []
  | _ + 1, [] => []
  | fuel + 1, l@(c :: rest) =>
    if c == 'L' || c == 'l' then
      match l with
      | _ :: 'i' :: 'n' :: 'e' :: r3 =>
        let r4 := r3.dropWhile isJsWs
        let ds := r4.takeWhile Char.isDigit
        if ds.isEmpty then scanLenientAux fuel rest
        else
          let len := lenTR l - lenTR (r4.drop ds.length)
          (String.mk (l.take len), digitsToNat ds) :: scanLenientAux fuel (l.drop len)
      | _ => scanLenientAux fuel rest
    else scanLenientAux fuel rest

/-- All matches of the lenient pattern over a string. -/
def scanLenient (s : String) : List (String × Nat) :=
  scanLenientAux (lenTR s.data) s.data

/-! ## Line markers and `extractLineReferences` (source lines 1121-1260) -/

/-- `{ text: string; lineNumber: number }`.  `lineNumber` is an `Int`
because the source stores `parsed - 1`, which is `-1` for a "[Line 0]"
reference. -/
structure LineMarker where
  text : String
  lineNumber : Int
deriving Repr, DecidableEq, BEq, Inhabited

/-- The SSML-stripping prefix of `extractLineReferences`
(source lines 1123-1136), applied in the order of the source. -/
def cleanSSMLForExtract (s : String) : String :=
  let l := s.data
  let l := replaceTag "break".data (", ".data) l
  let l := replaceTag "emphasis".data [] l
  let l := replaceLit "</emphasis>".data [] l
  let l := replaceLit "<p>".data [] l
  let l := replaceLit "</p>".data [] l
  let l := replaceLit "<s>".data [] l
  let l := replaceLit "</s>".data [] l
  let l := replaceTag "phoneme".data [] l
  let l := replaceLit "</phoneme>".data [] l
  let l := replaceTag "sub".data [] l
  let l := replaceLit "</sub>".data [] l
  let l := replaceTag "say-as".data [] l
  let l := replaceLit "</say-as>".data [] l
  String.mk l

/-- JS `codeToValidate.split('\n')` (never empty). -/
def splitLinesAux : List Char → List Char → List String
  | [], acc => [String.mk acc.reverse]
  | '\n' :: rest, acc => String.mk acc.reverse :: splitLinesAux rest []
  | c :: rest, acc => splitLinesAux rest (c :: acc)

def splitLines (s : String) : List String :=
  splitLinesAux s.data []

/-- A code line that the validation pass of `extractLineReferences`
accepts: non-empty after trimming and not starting with `//`, `/*`, `*`
or `#` (source line 1210). -/
def isMeaningfulLine (line : String) : Bool :=
  let t := jsTrimL line.data
  !t.isEmpty && !leadsWith "//".data t && !leadsWith "/*".data t &&
    !leadsWith "*".data t && !leadsWith "#".data t

/-- A code line that the enhancement loop of `synthesizeSpeech` keeps:
same check without `#` (source line 281). -/
def isSignificantLine (line : String) : Bool :=
  let t := jsTrimL line.data
  !t.isEmpty && !leadsWith "//".data t && !leadsWith "/*".data t &&
    !leadsWith "*".data t

/-- The look-ahead loop of the validation pass (source lines 1205-1214):
starting at `start`, check at most `fuel` (= 5) successive lines, stopping
at the end of the code; the first meaningful line found, if any. -/
def findMeaningfulWithin (codeLines : List String) : Nat → Nat → Option Nat
  | _, 0 => none
  | start, fuel + 1 =>
    if start ≥ codeLines.length then none
    else if isMeaningfulLine (codeLines.getD start "") then some start
    else findMeaningfulWithin codeLines (start + 1) fuel

/-- Validation of one marker against the code sample
(source lines 1190-1220): clamp the line number into range, then look
ahead up to 5 lines for a meaningful line. -/
def validateMarker (codeLines : List String) (m : LineMarker) : LineMarker :=
  let ln : Int :=
    if m.lineNumber < 0 then 0
    else if m.lineNumber ≥ (codeLines.length : Int) then (codeLines.length : Int) - 1
    else m.lineNumber
  let lnNat := ln.toNat
  let final := (findMeaningfulWithin codeLines lnNat 5).getD lnNat
  { text := m.text, lineNumber := (final : Int) }

/-- Synthetic markers when no reference was found but a code sample is
available (source lines 1230-1253). -/
def syntheticMarkers (codeLines : List String) : List LineMarker :=
  let len := codeLines.length
  let numMarkers := min 8 (max 3 (len / 15))
  let interval := len / (numMarkers + 1)
  (List.range numMarkers).filterMap (fun k =>
    let i := k + 1
    let lineNumber := i * interval
    if lineNumber < len then
      some { text := "Synthetic marker " ++ toString i, lineNumber := (lineNumber : Int) }
    else none)

/-- The regex passes of `extractLineReferences` (source lines 1143-1182):
primary pattern first, lenient pattern if the primary found nothing; each
match becomes a marker with the 0-based line number `parsed - 1`. -/
def rawMarkers (text : String) : List LineMarker :=
  let cleanText := cleanSSMLForExtract text
  let fromPrimary := (scanPrimary cleanText).map
    (fun p => { text := p.1, lineNumber := (p.2 : Int) - 1 : LineMarker })
  if fromPrimary.isEmpty then
    (scanLenient cleanText).map
      (fun p => { text := p.1, lineNumber := (p.2 : Int) - 1 : LineMarker })
  else fromPrimary

/-- `extractLineReferences(text, codeToValidate?)` (source lines
1121-1260). -/
def extractLineReferences (text : String) (codeToValidate : Option String) :
    List LineMarker :=
  let lineMarkers := rawMarkers text
  if truthyStrOpt codeToValidate && !lineMarkers.isEmpty then
    let codeLines := splitLines (codeToValidate.getD "")
    lineMarkers.map (validateMarker codeLines)
  else if !lineMarkers.isEmpty then lineMarkers
  else if truthyStrOpt codeToValidate then
    syntheticMarkers (splitLines (codeToValidate.getD ""))
  else []

/-! ## The module-level `speechState` and the backend-health functions -/

/-- The `SpeechState` record (source lines 24-46).  The two callback
fields and `currentUtterance` record only whether they are non-null; the
optional numeric fields use `Option Nat` so that JS `undefined` is `none`
(and JS falsiness of the value `0` is checked explicitly where the source
relies on truthiness). -/
structure SpeechStateM where
  isPlaying : Bool := false
  currentUtterance : Bool := false
  lineNumberCallback : Bool := false
  onFinishCallback : Bool := false
  quotaExceededUntil : Option Nat := none
  fallbackMode : Bool := false
  fallbackReasonLog : List String := []
  consecutiveErrors : Nat := 0
  lastErrorTime : Option Nat := none
  hasError : Bool := false
deriving Repr, DecidableEq, Inhabited

/-- `shouldUseFallbackDirectly()` (source lines 51-78).  The
`quotaExceededUntil &&` and `lastErrorTime &&` truthiness guards make the
stored value `0` behave like `undefined`. -/
def shouldUseFallbackDirectly (s : SpeechStateM) (now : Nat) : Bool :=
  if s.fallbackMode then true
  else if (match s.quotaExceededUntil with
           | some q => q != 0 && decide (now < q)
           | none => false) then true
  else if s.consecutiveErrors ≥ 3 then true
  else if (match s.lastErrorTime with
           | some t => t != 0 && decide ((now : Int) - (t : Int) < 30000)
           | none => false) then true
  else false

/-- `recordFailure(reason)` (source lines 83-104).  The log entry uses the
numeric timestamp where the source formats `toLocaleTimeString()`. -/
def recordFailure (s : SpeechStateM) (now : Nat) (reason : String) : SpeechStateM :=
  let s := { s with
    consecutiveErrors := s.consecutiveErrors + 1,
    lastErrorTime := some now,
    fallbackReasonLog := s.fallbackReasonLog ++ [toString now ++ ": " ++ reason] }
  let s := if s.fallbackReasonLog.length > 10 then
    { s with fallbackReasonLog := s.fallbackReasonLog.drop 1 } else s
  if s.consecutiveErrors ≥ 5 then { s with fallbackMode := true } else s

/-- `resetErrorState()` (source lines 109-123).  Note the order of the
source: `consecutiveErrors` and `lastErrorTime` are cleared FIRST, and the
5-minute age check then reads the just-cleared `lastErrorTime`
(`undefined`, hence an age of `Infinity`). -/
def resetErrorState (s : SpeechStateM) (now : Nat) : SpeechStateM :=
  let s := { s with consecutiveErrors := 0, lastErrorTime := none }
  if s.fallbackMode && s.consecutiveErrors == 0 then
    -- `lastErrorAge = lastErrorTime ? now - lastErrorTime : Infinity`
    let ageExceedsFiveMinutes : Bool :=
      match s.lastErrorTime with
      | none => true            -- Infinity > 5 * 60 * 1000
      | some t => decide ((now : Int) - (t : Int) > 300000)
    if ageExceedsFiveMinutes then { s with fallbackMode := false } else s
  else s

/-- `stop()` (source lines 1007-1022).  The pause / `speechSynthesis.cancel`
calls act on the external audio object; on the state, `stop` only nulls
`currentUtterance` and clears `isPlaying`.  It receives no reference to any
timer handle armed by `playSpeech` or `useBrowserSpeechAPI`. -/
def stop (s : SpeechStateM) : SpeechStateM :=
  let s := if s.currentUtterance then { s with currentUtterance := false } else s
  { s with isPlaying := false }

/-- The backend chosen for a session. -/
inductive BackendChoice
  | localFallback
  | remote
deriving Repr, DecidableEq, BEq

/-- The backend decision policy exactly as the claim states it
(spec section 4.5), written independently of the source: evaluated in
order, first match wins. -/
def specBackendPolicy (forceLocal : Bool) (quotaUntil : Option Nat)
    (fails : Nat) (lastFailure : Option Nat) (now : Nat) : BackendChoice :=
  if forceLocal then .localFallback
  else if (match quotaUntil with
           | some q => decide (now < q)
           | none => false) then .localFallback
  else if fails ≥ 3 then .localFallback
  else if (match lastFailure with
           | some t => decide ((now : Int) - (t : Int) < 30000)
           | none => false) then .localFallback
  else .remote

/-! ## `textToSSML` (source lines 213-254) and the synthesis pipeline -/

/-- The apostrophe character (written by code so that no bare quote
appears in the file). -/
def aposChar : Char := Char.ofNat 39

/-- The backtick character. -/
def btChar : Char := Char.ofNat 96

/-- XML escaping (source lines 215-220), the five replacements in source
order. -/
def xmlEscape (l : List Char) : List Char :=
  let l := replaceLit "&".data "&amp;".data l
  let l := replaceLit "<".data "&lt;".data l
  let l := replaceLit ">".data "&gt;".data l
  let l := replaceLit "\"".data "&quot;".data l
  replaceLit [aposChar] "&apos;".data l

/-- One global replace of `/p\s/g` by `p ++ tag` (the pause insertions of
source lines 240-244: the matched whitespace is replaced by the trailing
space of the tag text). -/
def insertBreakAfter (p : Char) (tag : List Char) : Nat → List Char → List Char
  | 0, l => l
  | _ + 1, [] => []
  | fuel + 1, c :: rest =>
    match rest with
    | c2 :: rest2 =>
      if c == p && isJsWs c2 then
        (c :: tag) ++ insertBreakAfter p tag fuel rest2
      else c :: insertBreakAfter p tag fuel rest
    | [] => [c]

/-- The keyword list of the emphasis regex (source line 247), in source
order. -/
def ssmlKeywords : List (List Char) :=
  ["function", "class", "const", "let", "var", "return", "if", "else",
   "for", "while", "try", "catch", "import", "from", "export"].map String.data

def emphOpen : List Char := "<emphasis level=\"moderate\">".data
def emphClose : List Char := "</emphasis>".data

/-- Try each keyword of the alternation, in order, at the head of `l`,
requiring a word boundary after it. -/
def tryKeywordAt (l : List Char) : Option (List Char) :=
  ssmlKeywords.findSome? (fun kw =>
    if leadsWith kw l &&
       (match l.drop kw.length with
        | [] => true
        | c :: _ => !isWordChar c) then some kw else none)

/-- The keyword-emphasis replace
`\b(function|...|export)\b` → `<emphasis level="moderate">$1</emphasis>`
(source lines 247-248).  `prev` is the character before the current
position (for the leading `\b`). -/
def emphasizeKeywordsAux : Nat → Option Char → List Char → List Char
  | 0, _, l => l
  | _ + 1, _, [] => []
  | fuel + 1, prev, l@(c :: rest) =>
    let boundaryBefore := match prev with
      | none => true
      | some pc => !isWordChar pc
    match (if boundaryBefore then tryKeywordAt l else none) with
    | some kw =>
      emphOpen ++ kw ++ emphClose ++
        emphasizeKeywordsAux fuel (some (kw.getLastD c)) (l.drop kw.length)
    | none => c :: emphasizeKeywordsAux fuel (some c) rest

/-- The backtick-code emphasis replace (source lines 249-250). -/
def emphasizeCodeAux : Nat → List Char → List Char
  | 0, l => l
  | _ + 1, [] => []
  | fuel + 1, c :: rest =>
    if c == btChar then
      let inner := rest.takeWhile (· != btChar)
      if !inner.isEmpty && leadsWith [btChar] (rest.drop inner.length) then
        emphOpen ++ inner ++ emphClose ++
          emphasizeCodeAux fuel (rest.drop (inner.length + 1))
      else c :: emphasizeCodeAux fuel rest
    else c :: emphasizeCodeAux fuel rest

/-- `textToSSML(text, voiceOptions, removeLiteralLineMarkers)` (source
lines 213-254).  The `voiceOptions` parameter is unused in the body of the
source; the only modelled call site (source line 293) passes
`removeLiteralLineMarkers = false`, so the marker-removal branch of lines
223-231 is skipped and is not modelled. -/
def textToSSML (text : String) : String :=
  let l := xmlEscape text.data
  let l := insertBreakAfter '.' "<break time=\"350ms\"/> ".data (lenTR l) l
  let l := insertBreakAfter ';' "<break time=\"300ms\"/> ".data (lenTR l) l
  let l := insertBreakAfter ':' "<break time=\"250ms\"/> ".data (lenTR l) l
  let l := insertBreakAfter '!' "<break time=\"400ms\"/> ".data (lenTR l) l
  let l := insertBreakAfter '?' "<break time=\"400ms\"/> ".data (lenTR l) l
  let l := emphasizeKeywordsAux (lenTR l) none l
  let l := emphasizeCodeAux (lenTR l) l
  String.mk ("<speak><prosody rate=\"0.95\">".data ++ l ++ "</prosody></speak>".data)

/-- The `/\bline\s+\d+\b/i` test of source line 265. -/
def hasLineWordRefAux : Nat → Option Char → List Char → Bool
  | 0, _, _ => false
  | _ + 1, _, [] => false
  | fuel + 1, prev, l@(c :: rest) =>
    let boundaryBefore := match prev with
      | none => true
      | some pc => !isWordChar pc
    let here : Bool :=
      boundaryBefore &&
      (match l with
       | a :: b :: c3 :: d :: r =>
         a.toLower == 'l' && b.toLower == 'i' && c3.toLower == 'n' &&
         d.toLower == 'e' &&
         (let w := r.takeWhile isJsWs
          let r2 := r.drop w.length
          let ds := r2.takeWhile Char.isDigit
          !w.isEmpty && !ds.isEmpty &&
          (match r2.drop ds.length with
           | [] => true
           | c2 :: _ => !isWordChar c2))
       | _ => false)
    here || hasLineWordRefAux fuel (some c) rest

/-- The `hasLineMarkers` test of `synthesizeSpeech` (source line 265). -/
def hasLineMarkersIn (text : String) : Bool :=
  jsIncludes text.data "[Line".data || jsIncludes text.data "Line ".data ||
    hasLineWordRefAux (lenTR text.data) none text.data

/-- The enhancement of marker-free text when a code sample is available
(source lines 269-289). -/
def enhanceText (codeLines : List String) : String :=
  let intro := "This code has " ++ toString codeLines.length ++
    " lines. Let" ++ String.mk [aposChar] ++
    "s examine it line by line. <break time=\"1s\"/>"
  codeLines.enum.foldl (fun acc p =>
    let line := jsTrim p.2
    if isSignificantLine p.2 then
      acc ++ "<break time=\"0.5s\"/> [Line " ++ toString (p.1 + 1) ++ "]: " ++
        line ++ " <break time=\"0.8s\"/>"
    else acc) intro

/-- The markup payload actually measured against the 5000-byte budget and
sent to the network (source lines 264-299): optional enhancement, then
`textToSSML`, then the (here always redundant) `<speak>` wrapping of
source line 296. -/
def buildWrappedSSML (text : String) (codeToValidate : Option String) : String :=
  let text :=
    if !hasLineMarkersIn text && truthyStrOpt codeToValidate then
      enhanceText (splitLines (codeToValidate.getD ""))
    else text
  let ssmlText := textToSSML text
  if strLeads "<speak>" (jsTrim ssmlText) then ssmlText
  else "<speak>" ++ ssmlText ++ "</speak>"

/-! ## `synthesizeSpeech` (source lines 261-421) -/

/-- The sentinel returned on every fallback path:
`` `tts-fallback-${Date.now()}` ``. -/
def fallbackId (now : Nat) : String :=
  String.mk ("tts-fallback-".data ++ (toString now).data)

/-- What the one `fetch('/api/tts')` interaction of a session produces,
seen from the caller:
* `netError`   : the fetch promise rejects (network/transport failure);
* `httpError`  : `!response.ok`, with status and error body;
* `badJson`    : `response.json()` rejects;
* `jsonBody`   : a parsed JSON body `{ success, audio?, error? }`. -/
inductive NetOutcome
  | netError
  | httpError (status : Nat) (body : String)
  | badJson
  | jsonBody (success : Bool) (audio : Option String) (error : Option String)
deriving Repr, DecidableEq

/-- Result of `synthesizeSpeech`: the resolved string, whether the network
was reached, and the updated health state. -/
structure SynthResult where
  audio : String
  networkCalled : Bool
  state : SpeechStateM
deriving Repr, DecidableEq

/-- A base64-alphabet character (`[A-Za-z0-9+/=]`, source line 384). -/
def base64CharOk (c : Char) : Bool :=
  c.isAlpha || c.isDigit || c == '+' || c == '/' || c == '='

/-- The `^[A-Za-z0-9+/=]+$` test (at least one character, all in the
alphabet). -/
def base64StrOk (a : String) : Bool :=
  !a.data.isEmpty && a.data.all base64CharOk

/-- The padding fix-up of source lines 373-381: if the length is not a
multiple of 4, append the missing `=` characters (the needed padding is
always `< 4` there). -/
def padBase64 (a : String) : String :=
  if a.data.length % 4 ≠ 0 then
    String.mk (a.data ++ List.replicate (4 - a.data.length % 4) '=')
  else a

/-- Models the validity check the browser `atob` performs on the sampled
100-character slice (source lines 392-401): forgiving-base64 accepts the
slice when its length is not `≡ 1 (mod 4)` and `=` occurs only as trailing
padding of at most two characters. -/
def atobOk (l : List Char) : Bool :=
  let nonPad := l.takeWhile (· != '=')
  l.length % 4 != 1 && (l.drop nonPad.length).all (· == '=') &&
    nonPad.length + 2 ≥ l.length

/-- `synthesizeSpeech(text, voiceOptions, codeToValidate?)` (source lines
261-421).  `voiceOptions` only flows into the request payload and is not
modelled.  Reading the source top to bottom: enhancement + SSML encoding
(into `buildWrappedSSML`), the 5000-byte guard (line 306), the
`shouldUseFallbackDirectly` guard (line 329), then the fetch and the
response validation chain. -/
def synthesizeSpeech (text : String) (codeToValidate : Option String)
    (s : SpeechStateM) (now : Nat) (net : NetOutcome) : SynthResult :=
  let wrappedSSML := buildWrappedSSML text codeToValidate
  if 5000 < strUtf8Len wrappedSSML then
    { audio := fallbackId now, networkCalled := false, state := s }
  else if shouldUseFallbackDirectly s now then
    { audio := fallbackId now, networkCalled := false, state := s }
  else
    match net with
    | .netError =>
      { audio := fallbackId now, networkCalled := true,
        state := recordFailure s now "Unknown error in synthesizeSpeech" }
    | .httpError status body =>
      { audio := fallbackId now, networkCalled := true,
        state := recordFailure s now
          ("API error (" ++ toString status ++ "): " ++
            String.mk (body.data.take 100)) }
    | .badJson =>
      { audio := fallbackId now, networkCalled := true,
        state := recordFailure s now "Invalid JSON response from API" }
    | .jsonBody success audio err =>
      if success && truthyStrOpt audio then
        let a := padBase64 (audio.getD "")
        if !base64StrOk a then
          { audio := fallbackId now, networkCalled := true,
            state := recordFailure s now "Invalid base64 characters in audio data" }
        else if !atobOk (a.data.take 100) then
          { audio := fallbackId now, networkCalled := true,
            state := recordFailure s now "Invalid base64 encoding" }
        else
          { audio := a, networkCalled := true, state := resetErrorState s now }
      else if truthyStrOpt err then
        { audio := fallbackId now, networkCalled := true,
          state := recordFailure s now
            ("API returned error: " ++ err.getD "") }
      else
        { audio := fallbackId now, networkCalled := true,
          state := recordFailure s now "Invalid or missing audio data from API" }

/-! ## `speak` (source lines 1262-1339) -/

/-- Result of one `speak()` call.  `decision` is the backend selected at
the `shouldUseFallbackDirectly` branch of source line 1294 (`none` when
the empty-text guard returned first); `usedBrowser` records whether
`useBrowserSpeechAPI` was invoked, `playedRemote` whether `playSpeech`
received Google audio. -/
structure SpeakResult where
  ret : Bool
  decision : Option BackendChoice
  usedBrowser : Bool
  playedRemote : Bool
  networkCalled : Bool
  markers : List LineMarker
  state : SpeechStateM
deriving Repr, DecidableEq

/-- `speak(text, onLineNumber?, onFinish?, voiceOptionsParam?, codeContent?)`
(source lines 1262-1339).  `synthesizeSpeech` never throws in the model
(it never does in the source either: its body is one big try/catch), so
the catch branch of lines 1322-1337 is unreachable and the non-empty paths
all reach the `return true` of line 1320 (or line 1298). -/
def speak (text : String) (hasLineCb hasFinishCb : Bool)
    (codeContent : Option String) (s : SpeechStateM) (now : Nat)
    (net : NetOutcome) : SpeakResult :=
  let s := stop s
  let s := { s with
    isPlaying := false, currentUtterance := false,
    lineNumberCallback := hasLineCb, onFinishCallback := hasFinishCb,
    hasError := false }
  if (jsTrim text).data.isEmpty then
    -- source line 1280: onFinish fires synchronously, return false
    { ret := false, decision := none, usedBrowser := false,
      playedRemote := false, networkCalled := false, markers := [], state := s }
  else
    let lineMarkers := extractLineReferences text codeContent
    if shouldUseFallbackDirectly s now then
      { ret := true, decision := some .localFallback, usedBrowser := true,
        playedRemote := false, networkCalled := false, markers := lineMarkers,
        state := s }
    else
      -- source line 1303: `synthesizeSpeech(text, voiceOptionsToUse)` -
      -- the code sample is NOT forwarded
      let r := synthesizeSpeech text none s now net
      if strLeads "tts-fallback-" r.audio then
        { ret := true, decision := some .remote, usedBrowser := true,
          playedRemote := false, networkCalled := r.networkCalled,
          markers := lineMarkers, state := resetErrorState r.state now }
      else
        { ret := true, decision := some .remote, usedBrowser := false,
          playedRemote := true, networkCalled := r.networkCalled,
          markers := lineMarkers, state := resetErrorState r.state now }

/-! ## `useBrowserSpeechAPI` (source lines 662-997) -/

/-- JS `cleanText.split(/\s+/)`: split on maximal whitespace runs, keeping
the (possibly empty) leading and trailing fields. -/
def jsSplitWsAux : Nat → List Char → List Char → List (List Char)
  | 0, _, cur => [cur.reverse]
  | _ + 1, [], cur => [cur.reverse]
  | fuel + 1, c :: rest, cur =>
    if isJsWs c then
      cur.reverse :: jsSplitWsAux fuel (rest.dropWhile isJsWs) []
    else jsSplitWsAux fuel rest (c :: cur)

def jsSplitWs (l : List Char) : List (List Char) :=
  jsSplitWsAux (lenTR l) l []

/-- `cleanText.split(/\s+/).length` (source lines 834-835). -/
def wordCountOf (s : String) : Nat :=
  (jsSplitWs s.data).length

/-- A pause-inducing punctuation character (`[,.;:?!]`, source line 844). -/
def isPausePunct (c : Char) : Bool :=
  c == ',' || c == '.' || c == ';' || c == ':' || c == '?' || c == '!'

/-- `(cleanText.match(/[,.;:?!]/g) || []).length` (source line 844). -/
def pauseCountOf (s : String) : Nat :=
  (s.data.filter isPausePunct).length

/-- The duration estimate of the browser path (source lines 834-849):
`rate` is `utterance.rate` and the `|| 1` guard of line 839 maps a zero
rate to `1`. -/
def estimateDurationMs (cleanText : String) (rate : ℚ) : ℚ :=
  let wordCount : ℚ := (wordCountOf cleanText : ℚ)
  let baseWordsPerSecond : ℚ := 5 / 2
  let speechRate : ℚ := if rate == 0 then 1 else rate
  let wordsPerSecond := baseWordsPerSecond / speechRate
  let pauseCount : ℚ := (pauseCountOf cleanText : ℚ)
  let pauseDuration : ℚ := 250
  let baseDuration := (wordCount / wordsPerSecond) * 1000
  let pauseTime := pauseCount * pauseDuration
  baseDuration + pauseTime

/-- `/\[Line\s*(\d+)\]/g → "Line $1"` (source line 733). -/
def replaceLineBrackets : Nat → List Char → List Char
  | 0, l => l
  | _ + 1, [] => []
  | fuel + 1, l@(c :: rest) =>
    match (match l with
      | '[' :: 'L' :: 'i' :: 'n' :: 'e' :: r =>
        let r2 := r.dropWhile isJsWs
        let ds := r2.takeWhile Char.isDigit
        if ds.isEmpty then none
        else match r2.drop ds.length with
          | ']' :: rest2 => some (ds, rest2)
          | _ => none
      | _ => none) with
    | some (ds, rest2) => "Line ".data ++ ds ++ replaceLineBrackets fuel rest2
    | none => c :: replaceLineBrackets fuel rest

/-- `/\[Lines\s*(\d+)\s*-\s*(\d+)\]/g → "Lines $1 to $2"` (source line
734). -/
def replaceLinesRange : Nat → List Char → List Char
  | 0, l => l
  | _ + 1, [] => []
  | fuel + 1, l@(c :: rest) =>
    match (match l with
      | '[' :: 'L' :: 'i' :: 'n' :: 'e' :: 's' :: r =>
        let r2 := r.dropWhile isJsWs
        let ds := r2.takeWhile Char.isDigit
        if ds.isEmpty then none
        else
          let r3 := (r2.drop ds.length).dropWhile isJsWs
          match r3 with
          | '-' :: r4 =>
            let r5 := r4.dropWhile isJsWs
            let ds2 := r5.takeWhile Char.isDigit
            if ds2.isEmpty then none
            else match r5.drop ds2.length with
              | ']' :: rest2 => some (ds, ds2, rest2)
              | _ => none
          | _ => none
      | _ => none) with
    | some (ds, ds2, rest2) =>
      "Lines ".data ++ ds ++ " to ".data ++ ds2 ++ replaceLinesRange fuel rest2
    | none => c :: replaceLinesRange fuel rest

/-- The SSML-stripping of `useBrowserSpeechAPI` (source lines 716-734),
in source order. -/
def browserCleanText (s : String) : String :=
  let l := s.data
  let l := replaceTag "break".data (", ".data) l
  let l := replaceTag "emphasis".data [] l
  let l := replaceLit "</emphasis>".data [] l
  let l := replaceTag "voice".data [] l
  let l := replaceLit "</voice>".data [] l
  let l := replaceTag "prosody".data [] l
  let l := replaceLit "</prosody>".data [] l
  let l := replaceTag "speak".data [] l
  let l := replaceLit "</speak>".data [] l
  let l := replaceTag "say-as".data [] l
  let l := replaceLit "</say-as>".data [] l
  let l := replaceLit "<p>".data [] l
  let l := replaceLit "</p>".data (". ".data) l
  let l := replaceLit "<s>".data [] l
  let l := replaceLit "</s>".data (". ".data) l
  let l := replaceTag [] [] l
  let l := replaceLineBrackets (lenTR l) l
  let l := replaceLinesRange (lenTR l) l
  String.mk l

/-- `cleanText.split(/[.!?]\s+/)` (source line 817). -/
def splitSentencesAux : Nat → List Char → List Char → List (List Char)
  | 0, _, cur => [cur.reverse]
  | _ + 1, [], cur => [cur.reverse]
  | fuel + 1, c :: rest, cur =>
    if (c == '.' || c == '!' || c == '?') &&
       (match rest with | c2 :: _ => isJsWs c2 | [] => false) then
      cur.reverse :: splitSentencesAux fuel (rest.dropWhile isJsWs) []
    else splitSentencesAux fuel rest (c :: cur)

/-- The synthetic sentence markers of source lines 813-829: one marker per
substantial sentence, line numbers cycling through `0..9`, at most 10. -/
def sentenceSyntheticAux : List (List Char) → Nat → Nat → List LineMarker
  | [], _, _ => []
  | sen :: rest, lineCount, cnt =>
    if (jsTrimL sen).length > 10 then
      let m : LineMarker := { text := String.mk sen, lineNumber := ((lineCount % 10 : Nat) : Int) }
      if cnt + 1 ≥ 10 then [m]
      else m :: sentenceSyntheticAux rest (lineCount + 1) (cnt + 1)
    else sentenceSyntheticAux rest lineCount cnt

/-- The in-function marker extraction of `useBrowserSpeechAPI` (source
lines 772-829), applied to the cleaned text when the caller provided no
markers: primary pattern, then lenient pattern, then sentence-based
synthetic markers. -/
def inFunctionMarkers (clean : String) : List LineMarker :=
  let fromPrimary := (scanPrimary clean).map
    (fun p => { text := p.1, lineNumber := (p.2 : Int) - 1 : LineMarker })
  let m1 := fromPrimary
  let m2 := if m1.isEmpty then
      (scanLenient clean).map
        (fun p => { text := p.1, lineNumber := (p.2 : Int) - 1 : LineMarker })
    else m1
  if m2.isEmpty then
    sentenceSyntheticAux (splitSentencesAux (lenTR clean.data) clean.data []) 0 0
  else m2

/-- `/[.!?]\s*$/.test(textBeforeMarker)` (source line 910). -/
def endsSentenceTest (l : List Char) : Bool :=
  match l.reverse.dropWhile isJsWs with
  | c :: _ => c == '.' || c == '!' || c == '?'
  | [] => false

/-- One entry of `findApproximatePositions` (source lines 859-888). -/
structure MarkerPos where
  marker : LineMarker
  position : ℚ
  textAround : String
deriving Repr, DecidableEq

/-- `findApproximatePositions` (source lines 859-888).  Note the `> 0`
comparison of line 866: a marker found at index 0 is treated as not
found. -/
def findApproxPositions (clean : List Char) (markers : List LineMarker) :
    List MarkerPos :=
  markers.enum.map (fun p =>
    let markerIndex := p.1
    let marker := p.2
    let pattern := marker.text.data.take (min 15 marker.text.data.length)
    let patternIndex := jsIndexOf clean pattern
    if patternIndex > 0 then
      let pi := patternIndex.toNat
      let st := pi - 10
      let en := min clean.length (pi + 30)
      { marker := marker,
        position := (pi : ℚ) / (clean.length : ℚ),
        textAround := String.mk ((clean.drop st).take (en - st)) }
    else
      { marker := marker,
        position :=
          if markers.length ≤ 1 then 1 / 5
          else 1 / 10 + (4 / 5) * ((markerIndex : ℚ) / ((markers.length : ℚ) - 1)),
        textAround := "[position estimated]" })

/-- `calculateAdaptiveHighlightTiming` (source lines 857-928): the delay,
in milliseconds, of each scheduled highlight. -/
def adaptiveTimings (clean : List Char) (markers : List LineMarker)
    (totalDurationMs : ℚ) : List (LineMarker × ℚ) :=
  (findApproxPositions clean markers).enum.map (fun p =>
    let index := p.1
    let item := p.2
    let basicTiming := item.position * totalDurationMs
    let initialDelay : ℚ := 500
    let progressiveFactor := max 0 (1 - ((index : ℚ) / (markers.length : ℚ)) * (3 / 2))
    let progressiveDelay := initialDelay * progressiveFactor
    let minSpaceBetweenHighlights : ℚ := 400
    let spacingAdjustment :=
      (index : ℚ) * (minSpaceBetweenHighlights * (1 / 2)) * (1 - item.position)
    let textBeforeMarker := item.textAround.data.take 10
    let sentenceBreakDelay : ℚ := if endsSentenceTest textBeforeMarker then 500 else 0
    (item.marker, basicTiming + progressiveDelay + spacingAdjustment + sentenceBreakDelay))

/-- A timer event of the browser session. -/
inductive BrowserEvent
  | highlight (line : Int)
  | safetyFinish
deriving Repr, DecidableEq, BEq

/-- An armed `setTimeout` handle. -/
structure QTimer where
  delay : ℚ
  event : BrowserEvent
deriving Repr, DecidableEq

/-- The fail-safe highlight timers armed first (source lines 672-697):
only when markers exist and the highlight callback is installed; evenly
spaced over 10 seconds. -/
def failSafeTimers (markers : List LineMarker) (hasLineCb : Bool) : List QTimer :=
  if !markers.isEmpty && hasLineCb then
    markers.enum.map (fun p =>
      { delay := (10000 / (markers.length : ℚ)) * (p.1 : ℚ),
        event := .highlight p.2.lineNumber })
  else []

/-- The timers armed by one `useBrowserSpeechAPI` call.  The source
declares TWO arrays named `timers`: the first at line 669 (receiving the
fail-safe highlight timers and, at line 707, the 15-second safety timer)
and a second, shadowing one at line 854 (receiving the adaptive highlight
timers of lines 931-940).  `utterance.onend` (line 942) and
`utterance.onerror` resolve the name `timers` to the SECOND declaration,
so only `innerTimers` can ever be cleared. -/
structure BrowserModel where
  cleanText : String
  totalDurationMs : ℚ
  outerTimers : List QTimer
  innerTimers : List QTimer
deriving Repr, DecidableEq

/-- The timer set-up of `useBrowserSpeechAPI(text, speechState,
lineMarkers)` (source lines 662-990), for a session whose highlight
callback is installed iff `hasLineCb`. -/
def useBrowserSpeechAPIModel (text : String) (markers : List LineMarker)
    (hasLineCb : Bool) : BrowserModel :=
  let outer := failSafeTimers markers hasLineCb ++
    [{ delay := 15000, event := .safetyFinish }]
  let clean := browserCleanText text
  let effMarkers := if markers.isEmpty then inFunctionMarkers clean else markers
  let total := estimateDurationMs clean (9 / 10)
  { cleanText := clean,
    totalDurationMs := total,
    outerTimers := outer,
    innerTimers := (adaptiveTimings clean.data effMarkers total).map
      (fun p => { delay := p.2, event := .highlight p.1.lineNumber }) }

/-- Which timers ever fire when browser speech ends normally at `endAt`
(`none` = the end event never arrives): `utterance.onend` clears the
shadowing inner `timers` array (so inner timers scheduled at or after
`endAt` are cancelled), while the outer array - fail-safe highlights and
the safety timer - is never cleared by anything in the source. -/
def firedTimers (m : BrowserModel) (endAt : Option ℚ) : List QTimer :=
  m.outerTimers ++
    (match endAt with
     | some t => m.innerTimers.filter (fun tm => tm.delay < t)
     | none => m.innerTimers)

/-- How many times `speechState.onFinishCallback` runs in one browser
session ending normally at `endAt`: once from `utterance.onend` (source
line 947) plus once per fired `safetyFinish` timer (source lines 700-705);
each call site guards on the callback being installed, and nothing in the
session clears it. -/
def browserFinishCount (m : BrowserModel) (hasFinishCb : Bool)
    (endAt : Option ℚ) : Nat :=
  if !hasFinishCb then 0
  else
    (match endAt with | some _ => 1 | none => 0) +
      (firedTimers m endAt).countP (fun tm => tm.event == BrowserEvent.safetyFinish)

/-- The highlights of a session that still fire after `stop()` was called
at time `stopAt`.  `stop` (source lines 1007-1022) receives only the
shared `speechState` - it has no reference to the timer handles held in
the closures of `playSpeech` / `useBrowserSpeechAPI`, so it cancels none
of them; each fail-safe timer body (source lines 682-691) re-reads
`speechState.lineNumberCallback` when it fires, and `stop` leaves that
field untouched.  Only the outer (never-cleared) timers are counted, so
the result is a lower bound that is independent of whether host-side
cancellation of the utterance also triggers `onend` (which would clear
only the inner, shadowing array). -/
def staleHighlightsAfterStop (m : BrowserModel) (s : SpeechStateM)
    (stopAt : ℚ) : List (ℚ × Int) :=
  let s2 := stop s
  if s2.lineNumberCallback then
    m.outerTimers.filterMap (fun tm =>
      match tm.event with
      | .highlight ln => if stopAt < tm.delay then some (tm.delay, ln) else none
      | _ => none)
  else []

/-! ## Specification-side definitions

These two definitions follow the WORDS of the spec / claims (not the
source); they exist to be compared against the source-derived definitions
above. -/

/-- Fueled search for the least meaningful index `≥ i` (the fuel
`lines.length - i` always suffices). -/
def nearestMeaningfulFromAux (lines : List String) : Nat → Nat → Option Nat
  | _, 0 => none
  | i, fuel + 1 =>
    if i < lines.length then
      if isMeaningfulLine (lines.getD i "") then some i
      else nearestMeaningfulFromAux lines (i + 1) fuel
    else none

/-- "the nearest following non-empty, non-comment line": the least index
`j ≥ i` whose line is meaningful. -/
def nearestMeaningfulFrom (lines : List String) (i : Nat) : Option Nat :=
  nearestMeaningfulFromAux lines i (lines.length - i)

/-- The AMENDED remapping rule of claim C5, stated from the spec words
plus the window correction the code forces: clamp the 0-based line number
into range, then move to the nearest following meaningful line only if it
lies within the 5-line look-ahead window, else keep the clamped number. -/
def windowRemapSpec (lines : List String) (ln : Int) : Int :=
  let len : Int := (lines.length : Int)
  let cl : Nat := (if ln < 0 then 0 else if ln ≥ len then len - 1 else ln).toNat
  match nearestMeaningfulFrom lines cl with
  | some j => if j < cl + 5 then (j : Int) else (cl : Int)
  | none => (cl : Int)

/-! ## Helper lemmas -/

theorem leadsWith_self_append (p t : List Char) : leadsWith p (p ++ t) = true := by
  induction p with
  | nil => rfl
  | cons c cs ih => simp [leadsWith, ih]

theorem strLeads_fallbackId (now : Nat) :
    strLeads "tts-fallback-" (fallbackId now) = true := by
  show leadsWith "tts-fallback-".data ("tts-fallback-".data ++ (toString now).data) = true
  exact leadsWith_self_append _ _

theorem splitLinesAux_length_pos (l : List Char) :
    ∀ acc, 0 < (splitLinesAux l acc).length := by
  induction l with
  | nil => intro acc; simp [splitLinesAux]
  | cons c rest ih =>
    intro acc
    by_cases h : c = '\n'
    · subst h; simp [splitLinesAux]
    · rw [splitLinesAux]
      · exact ih _
      · exact h

theorem splitLines_length_pos (s : String) : 0 < (splitLines s).length :=
  splitLinesAux_length_pos _ _

theorem nearestAux_ge (lines : List String) :
    ∀ fuel i j, nearestMeaningfulFromAux lines i fuel = some j → i ≤ j := by
  intro fuel
  induction fuel with
  | zero => intro i j h; simp [nearestMeaningfulFromAux] at h
  | succ fuel ih =>
    intro i j h
    rw [nearestMeaningfulFromAux] at h
    by_cases hi : i < lines.length
    · rw [if_pos hi] at h
      by_cases hm : isMeaningfulLine (lines.getD i "")
      · rw [if_pos hm] at h
        cases h
        exact Nat.le_refl _
      · rw [if_neg hm] at h
        exact Nat.le_of_succ_le (ih (i + 1) j h)
    · rw [if_neg hi] at h
      cases h

theorem nearest_unfold_lt (lines : List String) (i : Nat) (h : i < lines.length) :
    nearestMeaningfulFrom lines i =
      if isMeaningfulLine (lines.getD i "") then some i
      else nearestMeaningfulFrom lines (i + 1) := by
  have hfuel : lines.length - i = (lines.length - (i + 1)) + 1 := by omega
  rw [nearestMeaningfulFrom, hfuel, nearestMeaningfulFromAux, if_pos h]
  rfl

theorem nearest_unfold_ge (lines : List String) (i : Nat) (h : lines.length ≤ i) :
    nearestMeaningfulFrom lines i = none := by
  have hfuel : lines.length - i = 0 := by omega
  rw [nearestMeaningfulFrom, hfuel, nearestMeaningfulFromAux]

theorem nearest_ge (lines : List String) (i j : Nat)
    (h : nearestMeaningfulFrom lines i = some j) : i ≤ j :=
  nearestAux_ge lines _ i j h

/-- The bounded look-ahead of the source equals the spec-side unbounded
search cut off at the window. -/
theorem findMeaningfulWithin_eq_nearest (lines : List String) :
    ∀ fuel start, findMeaningfulWithin lines start fuel =
      match nearestMeaningfulFrom lines start with
      | some j => if j < start + fuel then some j else none
      | none => none := by
  intro fuel
  induction fuel with
  | zero =>
    intro start
    rw [findMeaningfulWithin]
    cases hn : nearestMeaningfulFrom lines start with
    | none => rfl
    | some j =>
      have hge := nearest_ge lines start j hn
      have hnl : ¬ j < start + 0 := by omega
      simp [hnl]
      rw [if_neg (by omega : ¬ j < start)]
  | succ fuel ih =>
    intro start
    rw [findMeaningfulWithin]
    by_cases hs : start ≥ lines.length
    · rw [if_pos hs, nearest_unfold_ge lines start hs]
    · rw [if_neg hs]
      have hlt : start < lines.length := by omega
      rw [nearest_unfold_lt lines start hlt]
      by_cases hm : isMeaningfulLine (lines.getD start "")
      · rw [if_pos hm, if_pos hm]
        have hl : start < start + (fuel + 1) := by omega
        simp [hl]
      · rw [if_neg hm, if_neg hm, ih (start + 1)]
        cases hn : nearestMeaningfulFrom lines (start + 1) with
        | none => rfl
        | some j =>
          have : start + 1 + fuel = start + (fuel + 1) := by omega
          rw [this]

theorem getD_window (lines : List String) (cl : Nat) :
    (((findMeaningfulWithin lines cl 5).getD cl : Nat) : Int) =
      match nearestMeaningfulFrom lines cl with
      | some j => if j < cl + 5 then (j : Int) else (cl : Int)
      | none => (cl : Int) := by
  rw [findMeaningfulWithin_eq_nearest]
  cases nearestMeaningfulFrom lines cl with
  | none => rfl
  | some j => by_cases hj : j < cl + 5 <;> simp [hj]

theorem validateMarker_eq_windowRemap (lines : List String) (m : LineMarker) :
    validateMarker lines m =
      { text := m.text, lineNumber := windowRemapSpec lines m.lineNumber } := by
  unfold validateMarker windowRemapSpec
  dsimp only
  rw [getD_window]

theorem filterMap_eq_map_of_forall {α β : Type} (f : α → Option β) (g : α → β) :
    ∀ l : List α, (∀ x ∈ l, f x = some (g x)) → l.filterMap f = l.map g := by
  intro l
  induction l with
  | nil => intro _; rfl
  | cons a t ih =>
    intro h
    rw [List.filterMap_cons, h a (by simp), List.map_cons,
      ih (fun x hx => h x (by simp [hx]))]

theorem mul_div_succ_lt (len n i : Nat) (hlen : 0 < len) (hi : i ≤ n) :
    i * (len / (n + 1)) < len := by
  have hq : len / (n + 1) * (n + 1) ≤ len := Nat.div_mul_le_self len (n + 1)
  rcases Nat.eq_zero_or_pos (len / (n + 1)) with h0 | hpos
  · simp [h0, hlen]
  · calc i * (len / (n + 1)) ≤ n * (len / (n + 1)) := Nat.mul_le_mul_right _ hi
      _ < n * (len / (n + 1)) + (len / (n + 1)) := Nat.lt_add_of_pos_right hpos
      _ = len / (n + 1) * (n + 1) := by ring
      _ ≤ len := hq

theorem syntheticMarkers_eq_map (codeLines : List String)
    (h : 0 < codeLines.length) :
    syntheticMarkers codeLines =
      (List.range (min 8 (max 3 (codeLines.length / 15)))).map (fun k =>
        { text := "Synthetic marker " ++ toString (k + 1),
          lineNumber := (((k + 1) * (codeLines.length /
            (min 8 (max 3 (codeLines.length / 15)) + 1)) : Nat) : Int) }) := by
  unfold syntheticMarkers
  dsimp only
  apply filterMap_eq_map_of_forall
  intro k hk
  rw [List.mem_range] at hk
  have hlt : (k + 1) * (codeLines.length /
      (min 8 (max 3 (codeLines.length / 15)) + 1)) < codeLines.length := by
    apply mul_div_succ_lt _ _ _ h
    omega
  simp [hlt]

theorem synthesizeSpeech_oversize (text : String) (code : Option String)
    (s : SpeechStateM) (now : Nat) (net : NetOutcome)
    (h : 5000 < strUtf8Len (buildWrappedSSML text code)) :
    synthesizeSpeech text code s now net =
      { audio := fallbackId now, networkCalled := false, state := s } := by
  unfold synthesizeSpeech
  dsimp only
  rw [if_pos h]

/-! ## Claim C5 -/

/-- C5 (counterexample): the claim says a reference addressing an
empty/comment-only line is remapped forward to the NEAREST following
non-empty, non-comment line.  For the narration `"[Line 1]"` against a
code sample whose line 1 is a comment and whose lines 2-5 are empty, the
nearest following meaningful line is index 5 (0-based), yet the code keeps
`lineNumber = 0`: the look-ahead of the source inspects only 5 lines. -/
theorem C5_remap_window_counterexample :
    extractLineReferences "[Line 1]" (some "// c\n\n\n\n\nx = 1") =
      [{ text := "[Line 1]", lineNumber := 0 }] ∧
    isMeaningfulLine ((splitLines "// c\n\n\n\n\nx = 1").getD 0 "") = false ∧
    nearestMeaningfulFrom (splitLines "// c\n\n\n\n\nx = 1") 0 = some 5 := by
  refine ⟨by decide, by decide, by decide⟩

/-- C5 (amended): for narration whose primary/lenient scan finds at least
one reference and a non-empty reference code, extraction maps each raw
marker through the windowed remap: clamp the 0-based number into range,
then substitute the nearest following non-empty, non-comment line ONLY if
it lies within the 5-line look-ahead window starting at the referenced
line; otherwise the (clamped) referenced line is kept even when it is
empty or comment-only.  In-range references to meaningful lines still
yield exactly `reference - 1`. -/
theorem C5_amended_forward_remap_window (text code : String)
    (hcode : code.data ≠ []) (hraw : rawMarkers text ≠ []) :
    extractLineReferences text (some code) =
      (rawMarkers text).map (fun m =>
        { text := m.text,
          lineNumber := windowRemapSpec (splitLines code) m.lineNumber }) := by
  unfold extractLineReferences
  have ht : truthyStrOpt (some code) = true := by
    simp [truthyStrOpt, List.isEmpty_iff, hcode]
  have hne : (rawMarkers text).isEmpty = false := by
    simp [List.isEmpty_iff, hraw]
  simp only [ht, hne, Bool.not_false, Bool.and_self, if_true, Option.getD_some]
  exact List.map_congr_left (fun m _ => validateMarker_eq_windowRemap _ m)

/-- C5 witness: concrete instance of the amended theorem. -/
theorem C5_amended_forward_remap_window_witness :
    "a\nb".data ≠ [] ∧ rawMarkers "[Line 2]" ≠ [] ∧
    extractLineReferences "[Line 2]" (some "a\nb") =
      (rawMarkers "[Line 2]").map (fun m =>
        { text := m.text,
          lineNumber := windowRemapSpec (splitLines "a\nb") m.lineNumber }) :=
  ⟨by decide, by decide,
    C5_amended_forward_remap_window "[Line 2]" "a\nb" (by decide) (by decide)⟩

/-! ## Claim C6 -/

/-- C6 (counterexample): the claim says extraction synthesizes EXACTLY 3
markers when no reference is found and a code sample is present.  For a
60-line code sample the source synthesizes
`min(8, max(3, 60 / 15)) = 4` markers. -/
theorem C6_synthetic_count_counterexample :
    rawMarkers "hello world" = [] ∧
    (extractLineReferences "hello world"
      (some (String.intercalate "\n" (List.replicate 60 "a")))).length = 4 := by
  refine ⟨by decide, by decide⟩

/-- C6 (amended): when neither scan finds a reference and a non-empty code
sample is supplied, extraction returns `n = min(8, max(3, lines / 15))`
synthetic markers (3 only when the code has at most 59 lines), placed at
the evenly spaced RAW line indices `i * (lines / (n + 1))` for
`i = 1 .. n` - counted over all lines of the code, not just its
non-empty/non-comment lines. -/
theorem C6_amended_synthetic_layout (text code : String)
    (hcode : code.data ≠ []) (hraw : rawMarkers text = []) :
    extractLineReferences text (some code) =
      (List.range (min 8 (max 3 ((splitLines code).length / 15)))).map (fun k =>
        { text := "Synthetic marker " ++ toString (k + 1),
          lineNumber := (((k + 1) * ((splitLines code).length /
            (min 8 (max 3 ((splitLines code).length / 15)) + 1)) : Nat) : Int) }) := by
  unfold extractLineReferences
  have ht : truthyStrOpt (some code) = true := by
    simp [truthyStrOpt, List.isEmpty_iff, hcode]
  simp only [hraw, List.isEmpty_nil, Bool.not_true, Bool.and_false,
    Bool.false_eq_true, if_false, if_pos, ht, if_true, Option.getD_some,
    List.map_nil]
  exact syntheticMarkers_eq_map _ (splitLines_length_pos code)

/-- C6 witness: concrete instance of the amended theorem. -/
theorem C6_amended_synthetic_layout_witness :
    "a\nb".data ≠ [] ∧ rawMarkers "hello" = [] ∧
    extractLineReferences "hello" (some "a\nb") =
      (List.range (min 8 (max 3 ((splitLines "a\nb").length / 15)))).map (fun k =>
        { text := "Synthetic marker " ++ toString (k + 1),
          lineNumber := (((k + 1) * ((splitLines "a\nb").length /
            (min 8 (max 3 ((splitLines "a\nb").length / 15)) + 1)) : Nat) : Int) }) :=
  ⟨by decide, by decide,
    C6_amended_synthetic_layout "hello" "a\nb" (by decide) (by decide)⟩

/-! ## Claim C1 -/

/-- C1: the claim says `onFinish` fires exactly once per session.  In the
browser/local path the 15-second safety timer is pushed into the first
`timers` array (source line 707), but `utterance.onend` (line 946) clears
the second, shadowing `timers` array declared at line 854 - so for a
session whose speech ends normally at 2000 ms the finish callback runs
TWICE: once from `onend` and once from the never-cancelled safety timer. -/
theorem C1_onFinish_fires_twice :
    browserFinishCount
      (useBrowserSpeechAPIModel "This explains Line 2 of the code."
        [{ text := "Line 2", lineNumber := 1 }] true)
      true (some 2000) = 2 := by decide

/-! ## Claim C2 -/

/-- C2 (counterexample): the claim says no stale highlight fires after
`stop()`.  For a session with two fail-safe highlight timers (delays 0 ms
and 5000 ms) and `stop()` called at 1000 ms, the 5000 ms timer still fires
its highlight: `stop` cancels no timers and leaves the highlight callback
installed. -/
theorem C2_stale_highlight_after_stop_counterexample :
    (stop { isPlaying := true, currentUtterance := true,
            lineNumberCallback := true,
            onFinishCallback := true }).lineNumberCallback = true ∧
    staleHighlightsAfterStop
      (useBrowserSpeechAPIModel "Look at Line 1 and then Line 5."
        [{ text := "Line 1", lineNumber := 0 },
         { text := "Line 5", lineNumber := 4 }] true)
      { isPlaying := true, currentUtterance := true,
        lineNumberCallback := true, onFinishCallback := true }
      1000 = [(5000, 4)] := by
  refine ⟨by decide, by decide⟩

/-- C2 (amended): `stop()` (also the `stop()` performed at the start of a
new `speak()`) halts the audio/utterance object but cancels none of the
pending highlight timers and leaves the callbacks installed; consequently
EVERY pending never-cleared (outer-array) highlight timer of the
superseded session still fires its highlight callback after `stop()`
returns. -/
theorem C2_amended_stop_cancels_nothing (m : BrowserModel) (s : SpeechStateM)
    (stopAt : ℚ) (hcb : s.lineNumberCallback = true) :
    (stop s).lineNumberCallback = s.lineNumberCallback ∧
    (stop s).onFinishCallback = s.onFinishCallback ∧
    staleHighlightsAfterStop m s stopAt =
      m.outerTimers.filterMap (fun tm =>
        match tm.event with
        | .highlight ln => if stopAt < tm.delay then some (tm.delay, ln) else none
        | _ => none) := by
  unfold staleHighlightsAfterStop stop
  by_cases hu : s.currentUtterance <;> simp [hu, hcb]

/-- C2 witness: concrete instance of the amended theorem. -/
theorem C2_amended_stop_cancels_nothing_witness :
    ({ lineNumberCallback := true : SpeechStateM }).lineNumberCallback = true ∧
    ((stop { lineNumberCallback := true : SpeechStateM }).lineNumberCallback =
        ({ lineNumberCallback := true : SpeechStateM }).lineNumberCallback ∧
      (stop { lineNumberCallback := true : SpeechStateM }).onFinishCallback =
        ({ lineNumberCallback := true : SpeechStateM }).onFinishCallback ∧
      staleHighlightsAfterStop
        { cleanText := "", totalDurationMs := 0,
          outerTimers := [{ delay := 5000, event := .highlight 2 }],
          innerTimers := [] }
        { lineNumberCallback := true : SpeechStateM } 1000 =
        ({ cleanText := "", totalDurationMs := 0,
           outerTimers := [{ delay := 5000, event := .highlight 2 }],
           innerTimers := [] } : BrowserModel).outerTimers.filterMap (fun tm =>
          match tm.event with
          | .highlight ln =>
            if (1000 : ℚ) < tm.delay then some (tm.delay, ln) else none
          | _ => none)) :=
  ⟨by decide,
    C2_amended_stop_cancels_nothing
      { cleanText := "", totalDurationMs := 0,
        outerTimers := [{ delay := 5000, event := .highlight 2 }],
        innerTimers := [] }
      { lineNumberCallback := true } 1000 (by decide)⟩

/-! ## Claim C3 -/

/-- The source-side fallback decision coincides with the spec-side policy
whenever every stored failure timestamp is positive (a JS
`Date.now()` value; the value `0` is falsy in the source and would be
treated as "no failure recorded"). -/
theorem backend_policy_agrees (s : SpeechStateM) (now : Nat)
    (hts : ∀ t, s.lastErrorTime = some t → 0 < t) :
    specBackendPolicy s.fallbackMode s.quotaExceededUntil s.consecutiveErrors
      s.lastErrorTime now =
      (if shouldUseFallbackDirectly s now then BackendChoice.localFallback
       else BackendChoice.remote) := by
  unfold specBackendPolicy shouldUseFallbackDirectly
  by_cases hf : s.fallbackMode
  · simp [hf]
  · simp only [hf, Bool.false_eq_true, if_false]
    have hquota : (match s.quotaExceededUntil with
        | some q => q != 0 && decide (now < q)
        | none => false)
        = (match s.quotaExceededUntil with
        | some q => decide (now < q)
        | none => false) := by
      cases s.quotaExceededUntil with
      | none => rfl
      | some q =>
        by_cases hq0 : q = 0
        · subst hq0; simp
        · simp [hq0]
    rw [hquota]
    by_cases hq : (match s.quotaExceededUntil with
        | some q => decide (now < q) | none => false) = true
    · simp [hq]
    · simp only [Bool.not_eq_true] at hq
      simp only [hq, Bool.false_eq_true, if_false]
      by_cases hc : s.consecutiveErrors ≥ 3
      · simp [hc]
      · simp only [hc, if_false]
        have hlast : (match s.lastErrorTime with
            | some t => t != 0 && decide ((now : Int) - (t : Int) < 30000)
            | none => false)
            = (match s.lastErrorTime with
            | some t => decide ((now : Int) - (t : Int) < 30000)
            | none => false) := by
          cases hl : s.lastErrorTime with
          | none => rfl
          | some t =>
            have ht0 : 0 < t := hts t hl
            have ht0' : t ≠ 0 := by omega
            simp [ht0']
        rw [hlast]
        by_cases hl2 : (match s.lastErrorTime with
            | some t => decide ((now : Int) - (t : Int) < 30000)
            | none => false) = true
        · simp [hl2]
        · simp only [Bool.not_eq_true] at hl2
          simp [hl2]

/-- C3: the backend decision taken at the start of every `speak()` call
(non-empty text, positive failure timestamps) follows the claimed policy:
force-local flag, then quota window, then `consecutiveErrors >= 3`, then
the 30-second cooldown, else remote - evaluated in order, first match
wins. -/
theorem C3_backend_decision_follows_policy (text : String) (cb1 cb2 : Bool)
    (code : Option String) (s : SpeechStateM) (now : Nat) (net : NetOutcome)
    (htext : (jsTrim text).data.isEmpty = false)
    (hts : ∀ t, s.lastErrorTime = some t → 0 < t) :
    (speak text cb1 cb2 code s now net).decision =
      some (specBackendPolicy s.fallbackMode s.quotaExceededUntil
        s.consecutiveErrors s.lastErrorTime now) := by
  rw [backend_policy_agrees s now hts]
  unfold speak
  have hfields : shouldUseFallbackDirectly
      { stop s with isPlaying := false, currentUtterance := false,
                    lineNumberCallback := cb1, onFinishCallback := cb2,
                    hasError := false } now = shouldUseFallbackDirectly s now := by
    unfold shouldUseFallbackDirectly stop
    by_cases hu : s.currentUtterance <;> simp [hu]
  simp only [htext, Bool.false_eq_true, if_false]
  by_cases hd : shouldUseFallbackDirectly s now
  · simp [hfields, hd]
  · simp only [hfields, hd, Bool.false_eq_true, if_false]
    split <;> rfl

/-- C3 witness: a state three failures deep (timestamps positive) makes
the next `speak()` decide for the local backend. -/
theorem C3_backend_decision_follows_policy_witness :
    (jsTrim "hello").data.isEmpty = false ∧
    (speak "hello" true true none
        { consecutiveErrors := 3, lastErrorTime := some 3 } 10000
        NetOutcome.netError).decision =
      some (specBackendPolicy false none 3 (some 3) 10000) :=
  ⟨by decide,
    C3_backend_decision_follows_policy "hello" true true none
      { consecutiveErrors := 3, lastErrorTime := some 3 } 10000
      NetOutcome.netError (by decide)
      (fun t h => by injection h with h2; omega)⟩

/-! ## Claim C4 -/

/-- C4: the escalation half of the claim holds (5 consecutive failures set
the forced-fallback flag, and with `consecutiveErrors >= 3` the next
`speak()` decides local without a network call), but the lift half fails:
`resetErrorState` clears `lastErrorTime` BEFORE its 5-minute age check
(source lines 110-118), so one successful call one second after the fifth
failure already clears `fallbackMode` - not "~5 minutes of no further
failures" as the claim (and the comment in the source) require. -/
theorem C4_forced_fallback_lifted_after_one_success :
    (recordFailure (recordFailure (recordFailure
        {} 1000 "e1") 2000 "e2") 3000 "e3").consecutiveErrors = 3 ∧
    (speak "hello" true true none
        (recordFailure (recordFailure (recordFailure
          {} 1000 "e1") 2000 "e2") 3000 "e3") 4000 NetOutcome.netError).decision
      = some BackendChoice.localFallback ∧
    (speak "hello" true true none
        (recordFailure (recordFailure (recordFailure
          {} 1000 "e1") 2000 "e2") 3000 "e3") 4000
        NetOutcome.netError).networkCalled = false ∧
    (recordFailure (recordFailure (recordFailure
        {} 1000 "e1") 2000 "e2") 3000 "e3").fallbackMode = false ∧
    (recordFailure (recordFailure (recordFailure (recordFailure (recordFailure
        {} 1000 "e1") 2000 "e2") 3000 "e3") 4000 "e4") 5000 "e5").fallbackMode
      = true ∧
    (recordFailure (recordFailure (recordFailure (recordFailure (recordFailure
        {} 1000 "e1") 2000 "e2") 3000 "e3") 4000 "e4") 5000
        "e5").consecutiveErrors = 5 ∧
    (speak "hello" true true none
        (recordFailure (recordFailure (recordFailure (recordFailure
          (recordFailure {} 1000 "e1") 2000 "e2") 3000 "e3") 4000 "e4") 5000
          "e5") 6000 NetOutcome.netError).decision
      = some BackendChoice.localFallback ∧
    (speak "hello" true true none
        (recordFailure (recordFailure (recordFailure (recordFailure
          (recordFailure {} 1000 "e1") 2000 "e2") 3000 "e3") 4000 "e4") 5000
          "e5") 6000 NetOutcome.netError).networkCalled = false ∧
    (resetErrorState
        (recordFailure (recordFailure (recordFailure (recordFailure
          (recordFailure {} 1000 "e1") 2000 "e2") 3000 "e3") 4000 "e4") 5000
          "e5") 6000).fallbackMode = false ∧
    ((6000 : Int) - 5000 < 300000) := by
  refine ⟨by decide, by decide, by decide, by decide, by decide, by decide,
    by decide, by decide, by decide, by decide⟩

/-! ## Claim C7 -/

/-- C7: when the markup-encoded payload (the wrapped SSML actually
measured at source line 302) exceeds 5000 bytes, `synthesizeSpeech`
returns the fallback sentinel without reaching the network and without
touching the health state; `speak()` then routes the session to the
browser fallback backend, still with no network call. -/
theorem C7_size_guard_no_network (text : String) (code code2 : Option String)
    (cb1 cb2 : Bool) (s : SpeechStateM) (now : Nat) (net : NetOutcome)
    (h : 5000 < strUtf8Len (buildWrappedSSML text code))
    (hnone : 5000 < strUtf8Len (buildWrappedSSML text none))
    (htext : (jsTrim text).data.isEmpty = false) :
    synthesizeSpeech text code s now net =
      { audio := fallbackId now, networkCalled := false, state := s } ∧
    (speak text cb1 cb2 code2 s now net).networkCalled = false ∧
    (speak text cb1 cb2 code2 s now net).usedBrowser = true := by
  refine ⟨synthesizeSpeech_oversize text code s now net h, ?_, ?_⟩ <;>
  · unfold speak
    simp only [htext, Bool.false_eq_true, if_false]
    split
    · rfl
    · rw [synthesizeSpeech_oversize _ _ _ _ _ hnone]
      simp [strLeads_fallbackId]

set_option maxHeartbeats 1000000 in
/-- C7 witness: 125 repetitions of "if " - each `if` is wrapped in a
40-character emphasis tag by the SSML encoding - produce a payload of
5171 bytes, above the 5000-byte budget. -/
theorem C7_size_guard_no_network_witness :
    5000 < strUtf8Len (buildWrappedSSML
      (String.mk (List.flatten (List.replicate 125 "if ".data))) none) ∧
    (jsTrim (String.mk (List.flatten (List.replicate 125 "if ".data)))).data.isEmpty
      = false ∧
    (synthesizeSpeech (String.mk (List.flatten (List.replicate 125 "if ".data)))
        none {} 7 NetOutcome.netError =
      { audio := fallbackId 7, networkCalled := false, state := {} } ∧
    (speak (String.mk (List.flatten (List.replicate 125 "if ".data))) true true
        none {} 7 NetOutcome.netError).networkCalled = false ∧
    (speak (String.mk (List.flatten (List.replicate 125 "if ".data))) true true
        none {} 7 NetOutcome.netError).usedBrowser = true) :=
  ⟨by decide, by decide,
    C7_size_guard_no_network (String.mk (List.flatten (List.replicate 125 "if ".data)))
      none none true true {} 7 NetOutcome.netError (by decide) (by decide)
      (by decide)⟩

/-! ## Claim C8 -/

/-- C8 (counterexample): the claim says `speak()` returns `true` iff
remote playback was achieved and `false` whenever a fallback path was
used.  With the forced-fallback flag set, `speak("hello", ...)` uses the
browser fallback (no network call, no remote playback) and still returns
`true` (source line 1298). -/
theorem C8_true_on_fallback_counterexample :
    (speak "hello" true true none { fallbackMode := true } 42
      NetOutcome.netError).ret = true ∧
    (speak "hello" true true none { fallbackMode := true } 42
      NetOutcome.netError).decision = some BackendChoice.localFallback ∧
    (speak "hello" true true none { fallbackMode := true } 42
      NetOutcome.netError).usedBrowser = true ∧
    (speak "hello" true true none { fallbackMode := true } 42
      NetOutcome.netError).playedRemote = false ∧
    (speak "hello" true true none { fallbackMode := true } 42
      NetOutcome.netError).networkCalled = false := by
  refine ⟨by decide, by decide, by decide, by decide, by decide⟩

/-- C8 (amended): the boolean returned by `speak()` does not indicate
whether remote playback was achieved: it is `true` for every input that is
non-empty after trimming - on the remote path and on every fallback path
alike - and `false` exactly when the text is empty/whitespace-only (the
only other `false`, the catch of source line 1337, is unreachable because
`synthesizeSpeech` never rejects). -/
theorem C8_amended_ret_iff_nonempty (text : String) (cb1 cb2 : Bool)
    (code : Option String) (s : SpeechStateM) (now : Nat) (net : NetOutcome) :
    (speak text cb1 cb2 code s now net).ret = !(jsTrim text).data.isEmpty := by
  unfold speak
  by_cases ht : (jsTrim text).data.isEmpty
  · simp [ht]
  · simp only [ht, Bool.false_eq_true, if_false, Bool.not_false]
    split
    · rfl
    · split <;> rfl

/-! ## Claim C9 -/

/-- C9: in the duration-unknown browser path, the estimated duration in
milliseconds is `wordCount / (2.5 / rate) * 1000` plus 250 ms per
sentence/clause punctuation mark of the clean text: the per-word rate is
2.5 words/second at rate multiplier 1 and scales inversely with the
multiplier; the browser session model uses exactly this estimate at the
hard-coded utterance rate 0.9. -/
theorem C9_browser_duration_estimate (text : String) (rate : ℚ)
    (markers : List LineMarker) (cb : Bool) (hr : rate ≠ 0) :
    estimateDurationMs text rate =
      ((wordCountOf text : ℚ) / ((5 / 2) / rate)) * 1000 +
        (pauseCountOf text : ℚ) * 250 ∧
    (useBrowserSpeechAPIModel text markers cb).totalDurationMs =
      estimateDurationMs (browserCleanText text) (9 / 10) := by
  constructor
  · unfold estimateDurationMs
    have hb : (rate == 0) = false := by simp [hr]
    simp [hb]
  · rfl

/-- C9 witness: concrete instance of the duration formula at rate 1. -/
theorem C9_browser_duration_estimate_witness :
    (1 : ℚ) ≠ 0 ∧
    (estimateDurationMs "Hi there." 1 =
      ((wordCountOf "Hi there." : ℚ) / ((5 / 2) / 1)) * 1000 +
        (pauseCountOf "Hi there." : ℚ) * 250 ∧
    (useBrowserSpeechAPIModel "Hi there." [] true).totalDurationMs =
      estimateDurationMs (browserCleanText "Hi there.") (9 / 10)) :=
  ⟨by norm_num, C9_browser_duration_estimate "Hi there." 1 [] true (by norm_num)⟩

/-! ## Claim C10 -/

/-- C10: `synthesizeSpeech` always resolves to a string and never throws:
every outcome other than a fully validated success-with-audio response -
network rejection, non-2xx status, malformed JSON, missing/empty/corrupt
audio, invalid base64 - is absorbed and reported in-band as the sentinel
`tts-fallback-<timestamp>`; a validated success returns the (possibly
padded) base64 audio. -/
theorem C10_synthesize_absorbs_failures (text : String) (code : Option String)
    (s : SpeechStateM) (now : Nat) (net : NetOutcome) :
    ((synthesizeSpeech text code s now net).audio = fallbackId now ∧
      strLeads "tts-fallback-" (fallbackId now) = true) ∨
    (∃ a e, net = NetOutcome.jsonBody true (some a) e ∧ a.data ≠ [] ∧
      (synthesizeSpeech text code s now net).audio = padBase64 a ∧
      base64StrOk (padBase64 a) = true) := by
  unfold synthesizeSpeech
  dsimp only
  split
  · exact Or.inl ⟨rfl, strLeads_fallbackId now⟩
  · split
    · exact Or.inl ⟨rfl, strLeads_fallbackId now⟩
    · cases net with
      | netError => exact Or.inl ⟨rfl, strLeads_fallbackId now⟩
      | httpError st b => exact Or.inl ⟨rfl, strLeads_fallbackId now⟩
      | badJson => exact Or.inl ⟨rfl, strLeads_fallbackId now⟩
      | jsonBody success audio err =>
        by_cases hs : (success && truthyStrOpt audio) = true
        · simp only [Bool.and_eq_true] at hs
          obtain ⟨hsu, hta⟩ := hs
          cases audio with
          | none => simp [truthyStrOpt] at hta
          | some a0 =>
            have ha0 : a0.data ≠ [] := by
              simpa [truthyStrOpt, List.isEmpty_iff] using hta
            subst hsu
            simp only [hta, Bool.true_and, if_true]
            by_cases hb : base64StrOk (padBase64 ((some a0).getD ""))
            · by_cases hat : atobOk ((padBase64 ((some a0).getD "")).data.take 100)
              · simp only [hb, hat, Bool.not_true, Bool.false_eq_true, if_false]
                exact Or.inr ⟨a0, err, rfl, ha0, rfl, by simpa using hb⟩
              · simp only [hb, Bool.not_true, Bool.false_eq_true, if_false,
                  Bool.not_eq_true] at hat ⊢
                simp only [hat, Bool.not_false, if_true]
                exact Or.inl ⟨by trivial, strLeads_fallbackId now⟩
            · simp only [Bool.not_eq_true] at hb
              simp only [hb, Bool.not_false, if_true]
              exact Or.inl ⟨by trivial, strLeads_fallbackId now⟩
        · simp only [hs, Bool.false_eq_true, if_false]
          split
          · exact Or.inl ⟨by trivial, strLeads_fallbackId now⟩
          · exact Or.inl ⟨by trivial, strLeads_fallbackId now⟩
